import Mathlib

/-!
Verification development for the gradient-visualizer repository
(`src/main.js`).  The JavaScript core is shallowly embedded:

* JavaScript numbers are modelled by `JSNum`: an exact real payload plus
  the IEEE special values `Infinity`, `-Infinity` and `NaN` (rounding and
  signed zero are not modelled; every concrete value appearing in the
  claims is exactly representable).
* `evaluateExpression` is modelled by the same regex-replacement chain as
  the source followed by a lexer/parser for the JavaScript expression
  grammar reachable from the substituted strings; a substituted string the
  JavaScript engine would reject (SyntaxError, ReferenceError, TypeError)
  is mapped to `none` by the parser and hence to `NaN`, exactly as the
  source's try/catch does.
* Stateful code (`STATE`, `checkAnswer`) becomes explicit state passing.
-/

namespace GradientViz

/-! ## JavaScript number model -/

/-- A JavaScript number: a finite value (exact real), an infinity, or NaN. -/
inductive JSNum where
  | num (r : ℝ)
  | inf
  | ninf
  | nan

namespace JSNum

/-- JavaScript unary minus. -/
noncomputable def jsNeg : JSNum → JSNum
  | num r => num (-r)
  | inf => ninf
  | ninf => inf
  | nan => nan

/-- JavaScript `+` on numbers. -/
noncomputable def jsAdd : JSNum → JSNum → JSNum
  | nan, _ => nan
  | _, nan => nan
  | inf, ninf => nan
  | ninf, inf => nan
  | inf, _ => inf
  | _, inf => inf
  | ninf, _ => ninf
  | _, ninf => ninf
  | num a, num b => num (a + b)

/-- JavaScript binary `-` on numbers. -/
noncomputable def jsSub : JSNum → JSNum → JSNum
  | nan, _ => nan
  | _, nan => nan
  | inf, inf => nan
  | ninf, ninf => nan
  | inf, _ => inf
  | ninf, _ => ninf
  | _, inf => ninf
  | _, ninf => inf
  | num a, num b => num (a - b)

/-- JavaScript `*` on numbers (`0 * Infinity` is NaN). -/
noncomputable def jsMul : JSNum → JSNum → JSNum
  | nan, _ => nan
  | _, nan => nan
  | num a, num b => num (a * b)
  | inf, num b => if b = 0 then nan else if 0 < b then inf else ninf
  | num a, inf => if a = 0 then nan else if 0 < a then inf else ninf
  | ninf, num b => if b = 0 then nan else if 0 < b then ninf else inf
  | num a, ninf => if a = 0 then nan else if 0 < a then ninf else inf
  | inf, inf => inf
  | ninf, ninf => inf
  | inf, ninf => ninf
  | ninf, inf => ninf

/-- JavaScript `/` on numbers (`x / 0` is a signed infinity for `x ≠ 0`,
`0 / 0` is NaN; signed zero is not modelled). -/
noncomputable def jsDiv : JSNum → JSNum → JSNum
  | nan, _ => nan
  | _, nan => nan
  | num a, num b =>
      if b = 0 then (if 0 < a then inf else if a < 0 then ninf else nan)
      else num (a / b)
  | num _, inf => num 0
  | num _, ninf => num 0
  | inf, num b => if b < 0 then ninf else inf
  | ninf, num b => if b < 0 then inf else ninf
  | inf, _ => nan
  | ninf, _ => nan

/-- JavaScript `**`.  An exponent of `0` yields `1` for every base
(including NaN), integer exponents use exact integer powers with
`0 ** negative = Infinity`, non-integer exponents on a nonnegative base
use `rpow` and on a negative base yield NaN, matching the ECMAScript
exponentiation semantics up to rounding and signed zero. -/
noncomputable def jsPow : JSNum → JSNum → JSNum
  | a, num s =>
      if s = 0 then num 1
      else
        match a with
        | nan => nan
        | inf => if 0 < s then inf else num 0
        | ninf =>
            if 0 < s then (if (⌊s⌋ : ℝ) = s ∧ Odd ⌊s⌋ then ninf else inf)
            else num 0
        | num r =>
            if (⌊s⌋ : ℝ) = s then
              if r = 0 ∧ s < 0 then inf else num (r ^ ⌊s⌋)
            else if r < 0 then nan
            else num (Real.rpow r s)
  | a, inf =>
      (match a with
       | nan => nan
       | num r => if |r| = 1 then nan else if |r| < 1 then num 0 else inf
       | inf => inf
       | ninf => inf)
  | a, ninf =>
      (match a with
       | nan => nan
       | num r => if |r| = 1 then nan else if |r| < 1 then inf else num 0
       | inf => num 0
       | ninf => num 0)
  | _, nan => nan

/-- JavaScript `<` (comparisons with NaN are false). -/
noncomputable def jsLt : JSNum → JSNum → Bool
  | nan, _ => false
  | _, nan => false
  | num a, num b => decide (a < b)
  | num _, inf => true
  | num _, ninf => false
  | inf, num _ => false
  | ninf, num _ => true
  | inf, inf => false
  | ninf, ninf => false
  | ninf, inf => true
  | inf, ninf => false

/-- JavaScript `Math.abs`. -/
noncomputable def jsAbs : JSNum → JSNum
  | num r => num |r|
  | inf => inf
  | ninf => inf
  | nan => nan

/-- JavaScript `isNaN` on a number value. -/
def jsIsNaN : JSNum → Bool
  | nan => true
  | _ => false

end JSNum

/-! ## The substituted-string pipeline of `evaluateExpression` -/

/-- If `pat` is a prefix of `s`, return the remainder of `s` after it. -/
def afterMatch : List Char → List Char → Option (List Char)
  | [], s => some s
  | _ :: _, [] => none
  | p :: ps, c :: cs => if p = c then afterMatch ps cs else none

/-- Model of JavaScript `String.prototype.replace` with a global literal
pattern: scan left to right, replace each non-overlapping occurrence, and
never rescan replacement text.  The fuel is an upper bound on the number
of scanning steps, each of which consumes at least one character. -/
def replaceGo : ℕ → List Char → List Char → List Char → List Char
  | 0, _, _, s => s
  | _ + 1, _, _, [] => []
  | fuel + 1, pat, repl, c :: cs =>
      match afterMatch pat (c :: cs) with
      | some rest =>
          if pat = [] then c :: replaceGo fuel pat repl cs
          else repl ++ replaceGo fuel pat repl rest
      | none => c :: replaceGo fuel pat repl cs

/-- Replace every occurrence of `pat` in `s` by `repl`. -/
def replaceAll (pat repl s : List Char) : List Char :=
  replaceGo (s.length + 1) pat repl s

/-- The replacement chain of `evaluateExpression` (src/main.js lines
127-138), in source order: the variables `x` and `y`, the constants `π`
and `e` (stringified as JavaScript prints `Math.PI` and `Math.E`), the
power operator, then the function names. -/
def substitute (expr : String) (x y : ℤ) : List Char :=
  let s0 := expr.data
  let s1 := replaceAll ['x'] ("(" ++ toString x ++ ")").data s0
  let s2 := replaceAll ['y'] ("(" ++ toString y ++ ")").data s1
  let s3 := replaceAll ['π'] ("3.141592653589793").data s2
  let s4 := replaceAll ['e'] ("2.718281828459045").data s3
  let s5 := replaceAll ['^'] ("**").data s4
  let s6 := replaceAll ("sin").data ("Math.sin").data s5
  let s7 := replaceAll ("cos").data ("Math.cos").data s6
  let s8 := replaceAll ("tan").data ("Math.tan").data s7
  let s9 := replaceAll ("sqrt").data ("Math.sqrt").data s8
  let s10 := replaceAll ("exp").data ("Math.exp").data s9
  replaceAll ("abs").data ("Math.abs").data s10

/-! ## Lexing the substituted string

The substituted string is handed to the `Function` constructor, i.e.
parsed as a JavaScript expression.  We model the JavaScript grammar
reachable from substituted strings: numeric literals, the operators
`+ - * / **`, parentheses, and dotted identifiers (`Math.sin`, …).  Any
string the engine would reject at parse time or whose evaluation would
throw (unknown identifier, calling a non-function) is mapped to `none`,
which `evaluateExpression` turns into NaN just as the source's try/catch
does. -/

inductive Tok where
  | tnum (q : ℚ)
  | tid (s : List Char)
  | tplus
  | tminus
  | tinc
  | tdec
  | tstar
  | tslash
  | tpow
  | tlp
  | trp
deriving DecidableEq

/-- Value of a digit string. -/
def digitsToNat (ds : List Char) : ℕ :=
  ds.foldl (fun acc c => 10 * acc + (c.toNat - 48)) 0

/-- Identifier continuation characters: letters and the dot of property
access, so that `Math.sin` lexes as one unit. -/
def isIdentChar (c : Char) : Bool := c.isAlpha || c = '.'

/-- Lex one numeric literal (digits, optionally a decimal point and more
digits); a lone dot is rejected, and so is an integer part with a leading
zero and further digits, which strict mode rejects as a legacy octal
form. -/
def lexNum (s : List Char) : Option (ℚ × List Char) :=
  let ds := s.takeWhile (fun c => c.isDigit)
  if 2 ≤ ds.length ∧ ds.head? = some '0' then none else
  let rest := s.dropWhile (fun c => c.isDigit)
  match rest with
  | '.' :: r2 =>
      let fs := r2.takeWhile (fun c => c.isDigit)
      let r3 := r2.dropWhile (fun c => c.isDigit)
      if ds.isEmpty ∧ fs.isEmpty then none
      else some ((digitsToNat ds : ℚ) + (digitsToNat fs : ℚ) / (10 ^ fs.length), r3)
  | _ => if ds.isEmpty then none else some ((digitsToNat ds : ℚ), rest)

/-- Fueled lexer; the fuel is an upper bound on the number of lexing
steps, each of which consumes at least one character.  As in the
JavaScript lexer, `++`, `--` and `**` are single maximal-munch tokens;
the update operators are never grammatical in the expressions reachable
here (and where the engine would accept and evaluate one, it yields NaN),
so they surface as parse failures. -/
def lexGo : ℕ → List Char → Option (List Tok)
  | 0, _ => none
  | _ + 1, [] => some []
  | fuel + 1, c :: cs =>
      if c = ' ' ∨ c = '\t' ∨ c = '\n' ∨ c = '\r' then lexGo fuel cs
      else if c = '+' then
        match cs with
        | '+' :: cs2 => (lexGo fuel cs2).map (Tok.tinc :: ·)
        | _ => (lexGo fuel cs).map (Tok.tplus :: ·)
      else if c = '-' then
        match cs with
        | '-' :: cs2 => (lexGo fuel cs2).map (Tok.tdec :: ·)
        | _ => (lexGo fuel cs).map (Tok.tminus :: ·)
      else if c = '/' then (lexGo fuel cs).map (Tok.tslash :: ·)
      else if c = '(' then (lexGo fuel cs).map (Tok.tlp :: ·)
      else if c = ')' then (lexGo fuel cs).map (Tok.trp :: ·)
      else if c = '*' then
        match cs with
        | '*' :: cs2 => (lexGo fuel cs2).map (Tok.tpow :: ·)
        | _ => (lexGo fuel cs).map (Tok.tstar :: ·)
      else if c.isDigit ∨ c = '.' then
        match lexNum (c :: cs) with
        | some (q, rest) => (lexGo fuel rest).map (Tok.tnum q :: ·)
        | none => none
      else if c.isAlpha then
        (lexGo fuel ((c :: cs).dropWhile isIdentChar)).map
          (Tok.tid ((c :: cs).takeWhile isIdentChar) :: ·)
      else none

/-- Lex a whole substituted string. -/
def lex (s : List Char) : Option (List Tok) := lexGo (s.length + 1) s

/-! ## Parsing -/

/-- The callable functions a substituted string can mention. -/
inductive JsFun where
  | sin
  | cos
  | tan
  | sqrt
  | exp
  | abs
deriving DecidableEq

/-- Abstract syntax of the JavaScript expressions reachable from
substituted strings. -/
inductive Ast where
  | lit (q : ℚ)
  | neg (a : Ast)
  | add (a b : Ast)
  | sub (a b : Ast)
  | mul (a b : Ast)
  | div (a b : Ast)
  | pow (a b : Ast)
  | call (f : JsFun) (a : Ast)
deriving DecidableEq

/-- Resolve a dotted identifier to a callable; any other identifier is a
ReferenceError (or a TypeError when called), hence a parse-level failure
in this model. -/
def lookupFun (s : List Char) : Option JsFun :=
  if s = ("Math.sin").data then some JsFun.sin
  else if s = ("Math.cos").data then some JsFun.cos
  else if s = ("Math.tan").data then some JsFun.tan
  else if s = ("Math.sqrt").data then some JsFun.sqrt
  else if s = ("Math.exp").data then some JsFun.exp
  else if s = ("Math.abs").data then some JsFun.abs
  else none

mutual

/-- Additive level: `mul (('+'|'-') mul)*`. -/
def parseAdd : ℕ → List Tok → Option (Ast × List Tok)
  | 0, _ => none
  | fuel + 1, ts =>
      match parseMul fuel ts with
      | some (a, r) => parseAddRest fuel a r
      | none => none

def parseAddRest : ℕ → Ast → List Tok → Option (Ast × List Tok)
  | 0, _, _ => none
  | fuel + 1, a, Tok.tplus :: r =>
      match parseMul fuel r with
      | some (b, r2) => parseAddRest fuel (Ast.add a b) r2
      | none => none
  | fuel + 1, a, Tok.tminus :: r =>
      match parseMul fuel r with
      | some (b, r2) => parseAddRest fuel (Ast.sub a b) r2
      | none => none
  | _ + 1, a, r => some (a, r)

/-- Multiplicative level: `unary (('*'|'/') unary)*`. -/
def parseMul : ℕ → List Tok → Option (Ast × List Tok)
  | 0, _ => none
  | fuel + 1, ts =>
      match parseUnary fuel ts with
      | some (a, r) => parseMulRest fuel a r
      | none => none

def parseMulRest : ℕ → Ast → List Tok → Option (Ast × List Tok)
  | 0, _, _ => none
  | fuel + 1, a, Tok.tstar :: r =>
      match parseUnary fuel r with
      | some (b, r2) => parseMulRest fuel (Ast.mul a b) r2
      | none => none
  | fuel + 1, a, Tok.tslash :: r =>
      match parseUnary fuel r with
      | some (b, r2) => parseMulRest fuel (Ast.div a b) r2
      | none => none
  | _ + 1, a, r => some (a, r)

/-- Unary minus and unary plus (unary plus is `ToNumber`, the identity
on the numeric values of this grammar).  Per the ECMAScript
exponentiation grammar the operand of a unary operator is an
update-level expression, so a `**` directly after it is not consumed
here: it is left over and surfaces as a parse failure at the enclosing
level, matching the engine's SyntaxError for `-2 ** 2`. -/
def parseUnary : ℕ → List Tok → Option (Ast × List Tok)
  | 0, _ => none
  | fuel + 1, Tok.tminus :: r =>
      match parseNegOperand fuel r with
      | some (a, r2) => some (Ast.neg a, r2)
      | none => none
  | fuel + 1, Tok.tplus :: r => parseNegOperand fuel r
  | fuel + 1, ts => parsePow fuel ts

/-- The operand of a unary `-` or `+`: further unary operators and then a
primary, never a `**` expression. -/
def parseNegOperand : ℕ → List Tok → Option (Ast × List Tok)
  | 0, _ => none
  | fuel + 1, Tok.tminus :: r =>
      match parseNegOperand fuel r with
      | some (a, r2) => some (Ast.neg a, r2)
      | none => none
  | fuel + 1, Tok.tplus :: r => parseNegOperand fuel r
  | fuel + 1, ts => parsePrimary fuel ts

/-- Right-associative `**`; the exponent may carry a unary minus. -/
def parsePow : ℕ → List Tok → Option (Ast × List Tok)
  | 0, _ => none
  | fuel + 1, ts =>
      match parsePrimary fuel ts with
      | some (a, Tok.tpow :: r) =>
          match parseUnary fuel r with
          | some (b, r2) => some (Ast.pow a b, r2)
          | none => none
      | some (a, r) => some (a, r)
      | none => none

/-- Literals, parenthesized expressions, and calls of known functions. -/
def parsePrimary : ℕ → List Tok → Option (Ast × List Tok)
  | 0, _ => none
  | _ + 1, Tok.tnum q :: r => some (Ast.lit q, r)
  | fuel + 1, Tok.tlp :: r =>
      match parseAdd fuel r with
      | some (a, Tok.trp :: r2) => some (a, r2)
      | _ => none
  | fuel + 1, Tok.tid s :: Tok.tlp :: r =>
      match lookupFun s with
      | some f =>
          match parseAdd fuel r with
          | some (a, Tok.trp :: r2) => some (Ast.call f a, r2)
          | _ => none
      | none => none
  | _ + 1, _ => none

end

/-- Substitute, lex and parse; `none` stands for every failure the
source's try/catch would turn into NaN. -/
def parseResult (expr : String) (x y : ℤ) : Option Ast :=
  match lex (substitute expr x y) with
  | none => none
  | some ts =>
      match parseAdd (10 * ts.length + 10) ts with
      | some (a, []) => some a
      | _ => none

/-! ## Evaluation -/

open JSNum in
/-- Semantics of the callable functions on JavaScript numbers. -/
noncomputable def jsApply : JsFun → JSNum → JSNum
  | JsFun.sin, num r => num (Real.sin r)
  | JsFun.sin, _ => nan
  | JsFun.cos, num r => num (Real.cos r)
  | JsFun.cos, _ => nan
  | JsFun.tan, num r => num (Real.tan r)
  | JsFun.tan, _ => nan
  | JsFun.sqrt, num r => if r < 0 then nan else num (Real.sqrt r)
  | JsFun.sqrt, inf => inf
  | JsFun.sqrt, _ => nan
  | JsFun.exp, num r => num (Real.exp r)
  | JsFun.exp, inf => inf
  | JsFun.exp, ninf => num 0
  | JsFun.exp, nan => nan
  | JsFun.abs, num r => num |r|
  | JsFun.abs, inf => inf
  | JsFun.abs, ninf => inf
  | JsFun.abs, nan => nan

/-- Tree-walking evaluation with JavaScript number semantics. -/
noncomputable def evalAst : Ast → JSNum
  | Ast.lit q => JSNum.num q
  | Ast.neg a => JSNum.jsNeg (evalAst a)
  | Ast.add a b => JSNum.jsAdd (evalAst a) (evalAst b)
  | Ast.sub a b => JSNum.jsSub (evalAst a) (evalAst b)
  | Ast.mul a b => JSNum.jsMul (evalAst a) (evalAst b)
  | Ast.div a b => JSNum.jsDiv (evalAst a) (evalAst b)
  | Ast.pow a b => JSNum.jsPow (evalAst a) (evalAst b)
  | Ast.call f a => jsApply f (evalAst a)

/-- Model of `evaluateExpression` (src/main.js lines 124-147): run the
replacement chain, parse the result as a JavaScript expression and
evaluate it; every failure is caught and becomes NaN. -/
noncomputable def evaluateExpression (expr : String) (x y : ℤ) : JSNum :=
  match parseResult expr x y with
  | none => JSNum.nan
  | some a => evalAst a

/-! ## The function catalog (src/main.js lines 21-91)

A generated instance is split into its coefficient draw (which consumes
the random source) and the closures it returns; the closures become a
record of real functions with the coefficients as integer parameters. -/

/-- The operations of a generated function instance used by the core. -/
structure FuncInst where
  evaluate : ℝ → ℝ → ℝ
  partialXValue : ℝ → ℝ → ℝ
  partialYValue : ℝ → ℝ → ℝ

/-- Quadratic family closures for coefficients `a b c d e`. -/
noncomputable def quadraticInstance (a b c d e : ℤ) : FuncInst where
  evaluate := fun x y =>
    (a : ℝ) * x * x + (b : ℝ) * x * y + (c : ℝ) * y * y + (d : ℝ) * x + (e : ℝ) * y
  partialXValue := fun x y => 2 * (a : ℝ) * x + (b : ℝ) * y + (d : ℝ)
  partialYValue := fun x y => (b : ℝ) * x + 2 * (c : ℝ) * y + (e : ℝ)

/-- Exponential family closures for coefficients `a c d`. -/
noncomputable def exponentialInstance (a c d : ℤ) : FuncInst where
  evaluate := fun x y => (a : ℝ) * Real.exp (-(x * x + y * y) / (c : ℝ)) + (d : ℝ)
  partialXValue := fun x y =>
    (a : ℝ) * Real.exp (-(x * x + y * y) / (c : ℝ)) * (-2 * x / (c : ℝ))
  partialYValue := fun x y =>
    (a : ℝ) * Real.exp (-(x * x + y * y) / (c : ℝ)) * (-2 * y / (c : ℝ))

/-- Sinusoidal family closures for coefficients `a b c`. -/
noncomputable def sinusoidalInstance (a b c : ℤ) : FuncInst where
  evaluate := fun x y => (a : ℝ) * Real.sin x + (b : ℝ) * Real.cos y + (c : ℝ)
  partialXValue := fun x _ => (a : ℝ) * Real.cos x
  partialYValue := fun _ y => -(b : ℝ) * Real.sin y

/-- Saddle family closures for coefficients `a b`. -/
noncomputable def saddleInstance (a b : ℤ) : FuncInst where
  evaluate := fun x y => (a : ℝ) * x * x - (b : ℝ) * y * y
  partialXValue := fun x _ => 2 * (a : ℝ) * x
  partialYValue := fun _ y => -2 * (b : ℝ) * y

/-! ## Random integer generation (src/main.js lines 101-107)

`Math.random()` is modelled as an injected stream of rationals in
`[0, 1)`; `none` stands for the loop not terminating on the given
stream. -/

/-- One draw: `Math.floor(r * (hi - lo + 1)) + lo`. -/
def drawInt (r : ℚ) (lo hi : ℤ) : ℤ := ⌊r * ((hi : ℚ) - (lo : ℚ) + 1)⌋ + lo

/-- `randomInt`: draw, and while the draw equals the excluded value draw
again, consuming the stream left to right. -/
def randomIntFrom : List ℚ → ℤ → ℤ → Option ℤ → Option ℤ
  | [], _, _, _ => none
  | r :: rest, lo, hi, exclude =>
      let n := drawInt r lo hi
      if exclude = some n then randomIntFrom rest lo hi exclude else some n

/-- Coefficient draw of the quadratic family:
`a, b, c = randomInt(-3, 3, 0)`, `d, e = randomInt(-2, 2, 0)`; `none`
stands for a random stream on which some draw loop does not finish. -/
def quadraticCoeffs (r1 r2 r3 r4 r5 : List ℚ) : Option (ℤ × ℤ × ℤ × ℤ × ℤ) :=
  match randomIntFrom r1 (-3) 3 (some 0), randomIntFrom r2 (-3) 3 (some 0),
      randomIntFrom r3 (-3) 3 (some 0), randomIntFrom r4 (-2) 2 (some 0),
      randomIntFrom r5 (-2) 2 (some 0) with
  | some a, some b, some c, some d, some e => some (a, b, c, d, e)
  | _, _, _, _, _ => none

/-- Coefficient draw of the exponential family:
`a, c = randomInt(1, 3)`, `d = randomInt(-2, 2, 0)`. -/
def exponentialCoeffs (r1 r2 r3 : List ℚ) : Option (ℤ × ℤ × ℤ) :=
  match randomIntFrom r1 1 3 none, randomIntFrom r2 1 3 none,
      randomIntFrom r3 (-2) 2 (some 0) with
  | some a, some c, some d => some (a, c, d)
  | _, _, _ => none

/-- Coefficient draw of the sinusoidal family:
`a, b = randomInt(1, 3)`, `c = randomInt(-2, 2, 0)`. -/
def sinusoidalCoeffs (r1 r2 r3 : List ℚ) : Option (ℤ × ℤ × ℤ) :=
  match randomIntFrom r1 1 3 none, randomIntFrom r2 1 3 none,
      randomIntFrom r3 (-2) 2 (some 0) with
  | some a, some b, some c => some (a, b, c)
  | _, _, _ => none

/-- Coefficient draw of the saddle family: `a, b = randomInt(1, 3)`. -/
def saddleCoeffs (r1 r2 : List ℚ) : Option (ℤ × ℤ) :=
  match randomIntFrom r1 1 3 none, randomIntFrom r2 1 3 none with
  | some a, some b => some (a, b)
  | _, _ => none

/-! ## Surface sampling (src/main.js lines 168-191) -/

/-- The loop `for (let i = lo; i <= hi; i += 0.3) out.push(i)`, fueled;
each iteration advances `lo` by `3/10`, so any fuel strictly above
`(hi - lo) * 10 / 3` lets the loop run to its exit condition. -/
def sampleLoopGo : ℕ → ℚ → ℚ → List ℚ
  | 0, _, _ => []
  | fuel + 1, lo, hi => if lo ≤ hi then lo :: sampleLoopGo fuel (lo + 3 / 10) hi else []

/-- The sampling loop with sufficient fuel. -/
def sampleLoop (lo hi : ℚ) : List ℚ :=
  sampleLoopGo (⌊(hi - lo) * 10 / 3⌋ + 2).toNat lo hi

/-- Model of `generateSurfaceData`: x-samples over
`[x0 - 5, x0 + 5]` by steps of `0.3`, likewise for y, and the z-matrix
row-major over y then x. -/
noncomputable def generateSurfaceData (func : FuncInst) (x0 y0 : ℚ) :
    List ℚ × List ℚ × List (List ℝ) :=
  let x := sampleLoop (x0 - 5) (x0 + 5)
  let y := sampleLoop (y0 - 5) (y0 + 5)
  (x, y, y.map (fun (yi : ℚ) => x.map (fun (xi : ℚ) => func.evaluate (xi : ℝ) (yi : ℝ))))

/-! ## Gradient arrow (src/main.js lines 196-229) -/

/-- The numeric payload of the arrow trace (the rendering attributes of
the source object are display-only and omitted). -/
structure ArrowTrace where
  x : List ℝ
  y : List ℝ
  z : List ℝ

/-- Model of `generateGradientArrows`. -/
noncomputable def generateGradientArrows (func : FuncInst) (x0 y0 : ℝ) : ArrowTrace :=
  let dfdx := func.partialXValue x0 y0
  let dfdy := func.partialYValue x0 y0
  let z0 := func.evaluate x0 y0
  let scale : ℝ := 3 / 10
  let magnitude := Real.sqrt (dfdx * dfdx + dfdy * dfdy)
  let scaledDfdx := if magnitude > 0 then dfdx / magnitude * scale else 0
  let scaledDfdy := if magnitude > 0 then dfdy / magnitude * scale else 0
  { x := [x0, x0 + scaledDfdx], y := [y0, y0 + scaledDfdy], z := [z0, z0] }

/-! ## Answer comparison and grading -/

/-- Model of `compareAnswers` (src/main.js lines 152-161): both
expressions are evaluated at the fixed probe point `(1, 1)`; the source's
default tolerance is `0.01`. -/
noncomputable def compareAnswers (userAnswer correctAnswer : String) (tolerance : ℝ) : Bool :=
  let userNum := evaluateExpression userAnswer 1 1
  let correctNum := evaluateExpression correctAnswer 1 1
  if JSNum.jsIsNaN userNum || JSNum.jsIsNaN correctNum then false
  else JSNum.jsLt (JSNum.jsAbs (JSNum.jsSub userNum correctNum)) (JSNum.num tolerance)

/-- The current question of `STATE` (src/main.js lines 8-16, 330-337):
its function instance, its point, and the grading fields. -/
structure Question where
  func : FuncInst
  px : ℤ
  py : ℤ
  answered : Bool
  correct : Option Bool

/-- The session counters of `STATE.stats`. -/
structure Stats where
  correct : ℕ
  attempted : ℕ

/-- The portion of `STATE` that `checkAnswer` reads and writes. -/
structure AppState where
  currentQuestion : Question
  stats : Stats

/-- Whitespace characters removed by `String.prototype.trim`. -/
def isSpaceChar (c : Char) : Bool := c = ' ' || c = '\t' || c = '\n' || c = '\r'

/-- Model of `String.prototype.trim`: drop whitespace from both ends. -/
def jsTrim (s : String) : String :=
  String.mk (((s.data.dropWhile isSpaceChar).reverse.dropWhile isSpaceChar).reverse)

/-- Model of `checkAnswer` (src/main.js lines 373-417): trim both inputs,
reject when either is empty (the alert leaves the state untouched),
otherwise evaluate both learner expressions at the question's point,
compare with tolerance `0.05`, update the counters and mark the
question. -/
noncomputable def checkAnswer (st : AppState) (inputDfDx inputDfDy : String) : AppState :=
  let userDfDx := jsTrim inputDfDx
  let userDfDy := jsTrim inputDfDy
  if userDfDx = "" ∨ userDfDy = "" then st
  else
    let func := st.currentQuestion.func
    let px := st.currentQuestion.px
    let py := st.currentQuestion.py
    let correctDfDx := func.partialXValue (px : ℝ) (py : ℝ)
    let correctDfDy := func.partialYValue (px : ℝ) (py : ℝ)
    let userDfDxValue := evaluateExpression userDfDx px py
    let userDfDyValue := evaluateExpression userDfDy px py
    let tolerance : ℝ := 5 / 100
    let dfdxCorrect :=
      JSNum.jsLt (JSNum.jsAbs (JSNum.jsSub userDfDxValue (JSNum.num correctDfDx)))
        (JSNum.num tolerance)
    let dfdyCorrect :=
      JSNum.jsLt (JSNum.jsAbs (JSNum.jsSub userDfDyValue (JSNum.num correctDfDy)))
        (JSNum.num tolerance)
    let allCorrect := dfdxCorrect && dfdyCorrect
    { currentQuestion :=
        { st.currentQuestion with answered := true, correct := some allCorrect },
      stats :=
        { attempted := st.stats.attempted + 1,
          correct := st.stats.correct + (if allCorrect then 1 else 0) } }

/-! ## Helper lemmas -/

theorem evaluateExpression_of_parse_fail {expr : String} {x y : ℤ}
    (h : parseResult expr x y = none) : evaluateExpression expr x y = JSNum.nan := by
  simp [evaluateExpression, h]

theorem nan_comparison_false (c t : JSNum) :
    JSNum.jsLt (JSNum.jsAbs (JSNum.jsSub JSNum.nan c)) t = false := by
  cases c <;> cases t <;> rfl

theorem num_comparison (u c : ℝ) (t : ℝ) :
    JSNum.jsLt (JSNum.jsAbs (JSNum.jsSub (JSNum.num u) (JSNum.num c))) (JSNum.num t)
      = decide (|u - c| < t) := rfl

theorem eval_2x3y : evaluateExpression ("2*x+3*y") 1 2 = JSNum.num 8 := by
  have hp : parseResult ("2*x+3*y") 1 2
      = some (Ast.add (Ast.mul (Ast.lit 2) (Ast.lit 1)) (Ast.mul (Ast.lit 3) (Ast.lit 2))) := by
    decide
  simp [evaluateExpression, hp, evalAst, JSNum.jsAdd, JSNum.jsMul]
  norm_num

theorem eval_one_div_x : evaluateExpression ("1/x") 0 0 = JSNum.inf := by
  have hp : parseResult ("1/x") 0 0 = some (Ast.div (Ast.lit 1) (Ast.lit 0)) := by decide
  simp [evaluateExpression, hp, evalAst, JSNum.jsDiv]

theorem eval_var_x_at_zero : evaluateExpression ("x") 0 0 = JSNum.num 0 := by
  have hp : parseResult ("x") 0 0 = some (Ast.lit 0) := by decide
  simp [evaluateExpression, hp, evalAst]

theorem eval_lit_zero : evaluateExpression ("0") 0 0 = JSNum.num 0 := by
  have hp : parseResult ("0") 0 0 = some (Ast.lit 0) := by decide
  simp [evaluateExpression, hp, evalAst]

theorem eval_var_x_at_one : evaluateExpression ("x") 1 1 = JSNum.num 1 := by
  have hp : parseResult ("x") 1 1 = some (Ast.lit 1) := by decide
  simp [evaluateExpression, hp, evalAst]

theorem eval_lit_zero_at_one : evaluateExpression ("0") 1 1 = JSNum.num 0 := by
  have hp : parseResult ("0") 1 1 = some (Ast.lit 0) := by decide
  simp [evaluateExpression, hp, evalAst]

/-! ## Claim theorems -/

/-- C2: the claim states that the evaluator tokenizes identifiers as
whole units before substitution so that the constant `e` never corrupts
`exp`, `sqrt`, `sin`, `cos`, `tan` or embedded variable names, and that
`exp(x)` with `x = 0` evaluates to `1`.  The source instead performs
naive text substitution: in `"exp(x)"` the `x`-replacement rewrites the
`x` inside `exp` and the `e`-replacement then rewrites its `e`, producing
the malformed string `"2.718281828459045(0)p((0))"`, so evaluation fails
and yields NaN instead of `1`.  The second conjunct shows the plain
arithmetic example from the same claim does hold. -/
theorem C2_substitution_bug :
    evaluateExpression ("exp(x)") 0 0 = JSNum.nan
      ∧ evaluateExpression ("2*x+3*y") 1 2 = JSNum.num 8 :=
  ⟨rfl, eval_2x3y⟩

/-- C3 counterexample: the claim states that evaluating `"1/x"` with
`x = 0, y = 0` fails with a `DomainError`; the code instead returns the
ordinary JavaScript value `Infinity` (division of a positive number by
zero), with no failure of any kind. -/
theorem C3_counterexample : evaluateExpression ("1/x") 0 0 = JSNum.inf :=
  eval_one_div_x

/-- C3 amended: no `DomainError` or `ParseError` exists in the code;
evaluating `"1/x"` at `x = 0` returns the numeric value `Infinity` per
IEEE division, evaluating the malformed `"sin("` returns the sentinel
NaN, and in general every input the engine rejects is mapped to NaN, not
surfaced as an explicit failure. -/
theorem C3_sentinel_instead_of_errors :
    evaluateExpression ("sin(") 0 0 = JSNum.nan
      ∧ evaluateExpression ("1/x") 0 0 = JSNum.inf
      ∧ (∀ (expr : String) (x y : ℤ), parseResult expr x y = none →
          evaluateExpression expr x y = JSNum.nan) :=
  ⟨rfl, eval_one_div_x, fun _ _ _ h => evaluateExpression_of_parse_fail h⟩

/-- C3 witness: the third conjunct applied to the unparseable input
`"("`. -/
theorem C3_witness : evaluateExpression ("(") 0 0 = JSNum.nan :=
  C3_sentinel_instead_of_errors.2.2 ("(") 0 0 (by decide)

/-- C10: the evaluator is total by construction in this model (it is a
function into `JSNum`); every parse-level failure is mapped to the single
sentinel NaN, and the downstream tolerance comparisons — the NaN guard of
`compareAnswers` and the `Math.abs(diff) < tolerance` comparison of
`checkAnswer` — treat a NaN operand as a non-match. -/
theorem C10_nan_sentinel :
    (∀ (expr : String) (x y : ℤ), parseResult expr x y = none →
        evaluateExpression expr x y = JSNum.nan)
      ∧ (∀ (userAnswer correctAnswer : String) (tolerance : ℝ),
          evaluateExpression userAnswer 1 1 = JSNum.nan →
          compareAnswers userAnswer correctAnswer tolerance = false)
      ∧ (∀ (c t : JSNum),
          JSNum.jsLt (JSNum.jsAbs (JSNum.jsSub JSNum.nan c)) t = false) := by
  refine ⟨fun _ _ _ h => evaluateExpression_of_parse_fail h, ?_, nan_comparison_false⟩
  intro ua ca tol h
  simp [compareAnswers, h, JSNum.jsIsNaN]

/-- C10 witness: the malformed input `"sin("` evaluates to NaN, so
`compareAnswers` rejects it for any correct answer and tolerance. -/
theorem C10_witness : compareAnswers ("sin(") ("1") 1 = false :=
  C10_nan_sentinel.2.1 ("sin(") ("1") 1 rfl

/-- C5: when the evaluation of either learner input fails (its value is
the NaN sentinel standing for a ParseError or DomainError), `checkAnswer`
grades the question as not correct: the recorded verdict is `some false`
and the correct counter is unchanged; the grading operation is a total
function, so no fault escapes it. -/
theorem C5_failed_evaluation_incorrect
    (st : AppState) (inputDfDx inputDfDy : String)
    (hx : ¬ jsTrim inputDfDx = "") (hy : ¬ jsTrim inputDfDy = "")
    (hfail : evaluateExpression (jsTrim inputDfDx)
          st.currentQuestion.px st.currentQuestion.py = JSNum.nan
        ∨ evaluateExpression (jsTrim inputDfDy)
          st.currentQuestion.px st.currentQuestion.py = JSNum.nan) :
    (checkAnswer st inputDfDx inputDfDy).currentQuestion.correct = some false
      ∧ (checkAnswer st inputDfDx inputDfDy).stats.correct = st.stats.correct := by
  simp only [checkAnswer]
  rw [if_neg (by simp [hx, hy])]
  rcases hfail with h | h <;> simp [h, nan_comparison_false]

/-- A concrete session state used to instantiate grading theorems: a
fresh saddle question at the origin. -/
noncomputable def demoState : AppState where
  currentQuestion :=
    { func := saddleInstance 1 1, px := 0, py := 0, answered := false, correct := none }
  stats := { correct := 0, attempted := 0 }

/-- A concrete session state whose question is already graded. -/
noncomputable def gradedState : AppState where
  currentQuestion :=
    { func := saddleInstance 1 1, px := 1, py := 1, answered := true, correct := some true }
  stats := { correct := 1, attempted := 1 }

/-- C5 witness: the malformed learner input `"sin("` in the dfdx slot,
and then in the dfdy slot with a well-formed dfdx answer, is graded
incorrect on a concrete state and leaves the correct counter
unchanged. -/
theorem C5_witness :
    ((checkAnswer demoState ("sin(") ("0")).currentQuestion.correct = some false
      ∧ (checkAnswer demoState ("sin(") ("0")).stats.correct = demoState.stats.correct)
    ∧ ((checkAnswer demoState ("0") ("sin(")).currentQuestion.correct = some false
      ∧ (checkAnswer demoState ("0") ("sin(")).stats.correct = demoState.stats.correct) :=
  ⟨C5_failed_evaluation_incorrect demoState ("sin(") ("0") (by decide) (by decide)
      (Or.inl rfl),
   C5_failed_evaluation_incorrect demoState ("0") ("sin(") (by decide) (by decide)
      (Or.inr rfl)⟩

/-- C4 counterexample: the claim states that every evaluation path of
the answer checker evaluates the learner's expression at the question's
actual point with grading tolerance `0.05`.  `compareAnswers` is an
evaluation path of the answer checker, and for a question posed at the
point `(0, 0)` the learner answer `"0"` agrees exactly with the correct
expression `"x"` at that point (both evaluate to `0` there, difference
`0 < 0.05`), yet `compareAnswers` returns `false`, because it evaluates
both expressions at the fixed probe point `(1, 1)` where `"x"` is `1`. -/
theorem C4_counterexample :
    compareAnswers ("0") ("x") (5 / 100) = false
      ∧ evaluateExpression ("0") 0 0 = JSNum.num 0
      ∧ evaluateExpression ("x") 0 0 = JSNum.num 0 := by
  refine ⟨?_, eval_lit_zero, eval_var_x_at_zero⟩
  simp [compareAnswers, eval_lit_zero_at_one, eval_var_x_at_one, JSNum.jsIsNaN,
    num_comparison]
  norm_num

/-- C4 amended: the main grading path `checkAnswer` does evaluate both
learner expressions at the question's actual point, declares each
partial-derivative answer matching exactly when the absolute difference
is strictly below the tolerance `0.05`, and marks the question correct
exactly when both match; but the helper `compareAnswers` evaluates both
of its expressions at the fixed probe point `(1, 1)`, so the claim's
"every evaluation path ... never at a fixed probe point" fails. -/
theorem C4_grading_paths :
    (∀ (st : AppState) (inputDfDx inputDfDy : String) (u v : ℝ),
        ¬ jsTrim inputDfDx = "" → ¬ jsTrim inputDfDy = "" →
        evaluateExpression (jsTrim inputDfDx) st.currentQuestion.px st.currentQuestion.py
          = JSNum.num u →
        evaluateExpression (jsTrim inputDfDy) st.currentQuestion.px st.currentQuestion.py
          = JSNum.num v →
        (checkAnswer st inputDfDx inputDfDy).currentQuestion.correct
          = some (decide (|u - st.currentQuestion.func.partialXValue
                  (st.currentQuestion.px : ℝ) (st.currentQuestion.py : ℝ)| < 5 / 100)
              && decide (|v - st.currentQuestion.func.partialYValue
                  (st.currentQuestion.px : ℝ) (st.currentQuestion.py : ℝ)| < 5 / 100)))
      ∧ (∀ (userAnswer correctAnswer : String) (tolerance : ℝ),
          compareAnswers userAnswer correctAnswer tolerance = true ↔
            ∃ u c : ℝ, evaluateExpression userAnswer 1 1 = JSNum.num u
              ∧ evaluateExpression correctAnswer 1 1 = JSNum.num c
              ∧ |u - c| < tolerance) := by
  constructor
  · intro st a b u v ha hb hu hv
    simp only [checkAnswer]
    rw [if_neg (by simp [ha, hb])]
    simp [hu, hv, num_comparison]
  · intro ua ca tol
    cases hA : evaluateExpression ua 1 1 <;> cases hB : evaluateExpression ca 1 1 <;>
      simp [compareAnswers, hA, hB, JSNum.jsIsNaN, JSNum.jsSub, JSNum.jsAbs, JSNum.jsLt]

/-- C4 witness: on a concrete question at `(0, 0)` the correct learner
inputs `"0"`, `"0"` are graded correct by `checkAnswer`, and
`compareAnswers` accepts a pair of expressions equal at its probe
point. -/
theorem C4_witness :
    (checkAnswer demoState ("0") ("0")).currentQuestion.correct = some true
      ∧ compareAnswers ("0") ("0") 1 = true := by
  constructor
  · have h := C4_grading_paths.1 demoState ("0") ("0") 0 0 (by decide) (by decide)
      eval_lit_zero eval_lit_zero
    rw [h]
    simp [demoState, saddleInstance]
  · exact (C4_grading_paths.2 ("0") ("0") 1).mpr
      ⟨0, 0, eval_lit_zero_at_one, eval_lit_zero_at_one, by norm_num⟩

/-- C6 counterexample: the claim states that submitting a second time on
a question that has already been graded is rejected without mutating the
attempted/correct counters.  `checkAnswer` has no guard on
`currentQuestion.answered`: on a state whose question is already graded
(`answered = true`, `attempted = 1`), a further non-empty submission
increments `attempted` to `2`. -/
theorem C6_counterexample :
    gradedState.currentQuestion.answered = true
      ∧ gradedState.stats.attempted = 1
      ∧ (checkAnswer gradedState ("4") ("2")).stats.attempted = 2 := by
  refine ⟨rfl, rfl, ?_⟩
  simp only [checkAnswer]
  rw [if_neg (by decide)]
  rfl

/-- C6 amended: `checkAnswer` rejects (leaving the state untouched) only
when a trimmed input is empty; every non-empty submission — including a
repeated one on an already-graded question — increments `attempted` and
sets `answered` to `true` and `correct` to a verdict.  Re-submission is
prevented only by the out-of-scope UI hiding the submit controls. -/
theorem C6_no_resubmission_guard :
    (∀ (st : AppState) (a b : String), (jsTrim a = "" ∨ jsTrim b = "") →
        checkAnswer st a b = st)
      ∧ (∀ (st : AppState) (a b : String), ¬ jsTrim a = "" → ¬ jsTrim b = "" →
          (checkAnswer st a b).stats.attempted = st.stats.attempted + 1
            ∧ (checkAnswer st a b).currentQuestion.answered = true
            ∧ ∃ v, (checkAnswer st a b).currentQuestion.correct = some v) := by
  constructor
  · intro st a b h
    simp [checkAnswer, h]
  · intro st a b ha hb
    simp only [checkAnswer]
    rw [if_neg (by simp [ha, hb])]
    exact ⟨rfl, rfl, _, rfl⟩

/-- C6 witness: an empty input leaves the state untouched, and a
non-empty submission on the already-graded state increments
`attempted`. -/
theorem C6_witness :
    checkAnswer demoState ("") ("x") = demoState
      ∧ (checkAnswer gradedState ("4") ("2")).stats.attempted
          = gradedState.stats.attempted + 1 :=
  ⟨C6_no_resubmission_guard.1 demoState ("") ("x") (by decide),
   (C6_no_resubmission_guard.2 gradedState ("4") ("2") (by decide) (by decide)).1⟩

/-! ## Surface sampler lemmas -/

theorem sampleLoopGo_nil_of_not_le {fuel : ℕ} {lo hi : ℚ} (h : ¬ lo ≤ hi) :
    sampleLoopGo fuel lo hi = [] := by
  cases fuel <;> simp [sampleLoopGo, h]

theorem sampleLoopGo_head {fuel : ℕ} {lo hi x : ℚ} {rest : List ℚ}
    (h : sampleLoopGo fuel lo hi = x :: rest) : x = lo := by
  cases fuel with
  | zero => simp [sampleLoopGo] at h
  | succ f =>
      simp only [sampleLoopGo] at h
      split at h
      · exact (List.cons.injEq _ _ _ _ ▸ h).1.symm
      · exact absurd h (by simp)

theorem sampleLoopGo_head? {fuel : ℕ} {lo hi : ℚ} (hf : 0 < fuel) (hle : lo ≤ hi) :
    (sampleLoopGo fuel lo hi).head? = some lo := by
  cases fuel with
  | zero => omega
  | succ f => simp [sampleLoopGo, hle]

theorem sampleLoopGo_step {fuel : ℕ} {lo hi : ℚ} {j : ℕ} {a b : ℚ}
    (ha : (sampleLoopGo fuel lo hi)[j]? = some a)
    (hb : (sampleLoopGo fuel lo hi)[j + 1]? = some b) : b = a + 3 / 10 := by
  induction fuel generalizing lo j with
  | zero => simp [sampleLoopGo] at ha
  | succ f ih =>
      by_cases hle : lo ≤ hi
      · simp only [sampleLoopGo, if_pos hle] at ha hb
        cases j with
        | zero =>
            rw [List.getElem?_cons_zero] at ha
            rw [List.getElem?_cons_succ] at hb
            cases hl : sampleLoopGo f (lo + 3 / 10) hi with
            | nil => rw [hl] at hb; simp at hb
            | cons z r =>
                rw [hl, List.getElem?_cons_zero] at hb
                have hz := sampleLoopGo_head hl
                obtain rfl : a = lo := by injection ha with h1; exact h1.symm
                obtain rfl : z = b := by injection hb
                rw [hz]
        | succ k =>
            rw [List.getElem?_cons_succ] at ha hb
            exact ih ha hb
      · rw [sampleLoopGo_nil_of_not_le hle] at ha
        simp at ha

theorem getLast?_cons_of_ne_nil {α : Type} (a : α) {l : List α} (h : l ≠ []) :
    (a :: l).getLast? = l.getLast? := by
  cases l with
  | nil => exact absurd rfl h
  | cons b t => simp [List.getLast?]

theorem sampleLoopGo_last {fuel : ℕ} : ∀ {lo hi : ℚ}, lo ≤ hi →
    (hi - lo) * 10 / 3 < (fuel : ℚ) →
    ∃ L, (sampleLoopGo fuel lo hi).getLast? = some L ∧ L ≤ hi ∧ hi - L < 3 / 10 := by
  induction fuel with
  | zero =>
      intro lo hi hle hf
      have h0 : (0 : ℚ) ≤ (hi - lo) * 10 / 3 := by
        have : (0 : ℚ) ≤ hi - lo := by linarith
        positivity
      norm_num at hf
      linarith
  | succ f ih =>
      intro lo hi hle hf
      simp only [sampleLoopGo, if_pos hle]
      by_cases h2 : lo + 3 / 10 ≤ hi
      · obtain ⟨L, hL, hLe, hLs⟩ := ih h2 (by push_cast at hf ⊢; linarith)
        refine ⟨L, ?_, hLe, hLs⟩
        rw [getLast?_cons_of_ne_nil _ (by intro hnil; rw [hnil] at hL; simp at hL)]
        exact hL
      · rw [sampleLoopGo_nil_of_not_le h2]
        exact ⟨lo, rfl, hle, by linarith⟩

theorem sampleLoop_fuel {lo hi : ℚ} (hle : lo ≤ hi) :
    (hi - lo) * 10 / 3 < (((⌊(hi - lo) * 10 / 3⌋ + 2).toNat : ℕ) : ℚ) := by
  have hq : (0 : ℚ) ≤ (hi - lo) * 10 / 3 := by
    have : (0 : ℚ) ≤ hi - lo := by linarith
    positivity
  have h0 : (0 : ℤ) ≤ ⌊(hi - lo) * 10 / 3⌋ := Int.floor_nonneg.mpr hq
  have htn : (((⌊(hi - lo) * 10 / 3⌋ + 2).toNat : ℕ) : ℤ)
      = ⌊(hi - lo) * 10 / 3⌋ + 2 := Int.toNat_of_nonneg (by omega)
  have hlt := Int.lt_floor_add_one ((hi - lo) * 10 / 3)
  have hcast : (((⌊(hi - lo) * 10 / 3⌋ + 2).toNat : ℕ) : ℚ)
      = ((⌊(hi - lo) * 10 / 3⌋ : ℚ) + 2) := by
    exact_mod_cast htn
  rw [hcast]
  linarith

theorem sampleLoop_getLast {lo hi : ℚ} (hle : lo ≤ hi) :
    ∃ L, (sampleLoop lo hi).getLast? = some L ∧ L ≤ hi ∧ hi - L < 3 / 10 :=
  sampleLoopGo_last hle (sampleLoop_fuel hle)

theorem sampleLoop_head {lo hi : ℚ} (hle : lo ≤ hi) :
    (sampleLoop lo hi).head? = some lo := by
  apply sampleLoopGo_head? _ hle
  have hq : (0 : ℚ) ≤ (hi - lo) * 10 / 3 := by
    have : (0 : ℚ) ≤ hi - lo := by linarith
    positivity
  have h0 : (0 : ℤ) ≤ ⌊(hi - lo) * 10 / 3⌋ := Int.floor_nonneg.mpr hq
  omega

/-- C7: the surface sampler starts both axes at `center - 5`, advances by
exactly `0.3` between consecutive samples, ends within one step of
`center + 5`, and produces a z-matrix with one row per y-sample, one
column per x-sample, whose entry at row `i`, column `j` is
`func.evaluate` at the j-th x-sample and i-th y-sample.  Determinism is
structural: `generateSurfaceData` is a function of its arguments with no
random source. -/
theorem C7_surface_grid (func : FuncInst) (x0 y0 : ℚ) :
    ((generateSurfaceData func x0 y0).1.head? = some (x0 - 5)
      ∧ (generateSurfaceData func x0 y0).2.1.head? = some (y0 - 5))
    ∧ (∀ (j : ℕ) (a b : ℚ), (generateSurfaceData func x0 y0).1[j]? = some a →
        (generateSurfaceData func x0 y0).1[j + 1]? = some b → b = a + 3 / 10)
    ∧ (∀ (j : ℕ) (a b : ℚ), (generateSurfaceData func x0 y0).2.1[j]? = some a →
        (generateSurfaceData func x0 y0).2.1[j + 1]? = some b → b = a + 3 / 10)
    ∧ (∃ L, (generateSurfaceData func x0 y0).1.getLast? = some L
        ∧ L ≤ x0 + 5 ∧ (x0 + 5) - L < 3 / 10)
    ∧ (∃ L, (generateSurfaceData func x0 y0).2.1.getLast? = some L
        ∧ L ≤ y0 + 5 ∧ (y0 + 5) - L < 3 / 10)
    ∧ (generateSurfaceData func x0 y0).2.2.length
        = (generateSurfaceData func x0 y0).2.1.length
    ∧ (∀ (i : ℕ) (row : List ℝ), (generateSurfaceData func x0 y0).2.2[i]? = some row →
        row.length = (generateSurfaceData func x0 y0).1.length)
    ∧ (∀ (i j : ℕ) (row : List ℝ) (v : ℝ) (xi yi : ℚ),
        (generateSurfaceData func x0 y0).2.2[i]? = some row →
        row[j]? = some v →
        (generateSurfaceData func x0 y0).1[j]? = some xi →
        (generateSurfaceData func x0 y0).2.1[i]? = some yi →
        v = func.evaluate (xi : ℝ) (yi : ℝ)) := by
  have hx : (x0 : ℚ) - 5 ≤ x0 + 5 := by linarith
  have hy : (y0 : ℚ) - 5 ≤ y0 + 5 := by linarith
  simp only [generateSurfaceData]
  refine ⟨⟨sampleLoop_head hx, sampleLoop_head hy⟩,
    fun j a b ha hb => sampleLoopGo_step ha hb,
    fun j a b ha hb => sampleLoopGo_step ha hb,
    sampleLoop_getLast hx, sampleLoop_getLast hy,
    by simp, ?_, ?_⟩
  · intro i row hrow
    rw [List.getElem?_map] at hrow
    obtain ⟨yi, _, rfl⟩ := Option.map_eq_some'.mp hrow
    simp
  · intro i j row v xi yi hrow hv hxi hyi
    rw [List.getElem?_map] at hrow
    obtain ⟨yi', hyi', rfl⟩ := Option.map_eq_some'.mp hrow
    rw [hyi] at hyi'
    injection hyi' with hyy
    subst hyy
    rw [List.getElem?_map, hxi] at hv
    injection hv with hv
    exact hv.symm

/-- C7 witness: the theorem instantiated on the saddle instance with
coefficients `1, 1` centered at the origin: the first x-sample is `-5`,
the second is `-5 + 0.3`, the first row has as many entries as there are
x-samples, and the corner entry equals `evaluate (-5) (-5)`. -/
theorem C7_witness :
    (generateSurfaceData (saddleInstance 1 1) 0 0).1.head? = some (0 - 5)
      ∧ ((-47 : ℚ) / 10) = -5 + 3 / 10
      ∧ ((generateSurfaceData (saddleInstance 1 1) 0 0).1.map
            (fun (xi : ℚ) => (saddleInstance 1 1).evaluate (xi : ℝ) (((-5 : ℚ)) : ℝ))).length
          = (generateSurfaceData (saddleInstance 1 1) 0 0).1.length
      ∧ (saddleInstance 1 1).evaluate (((-5 : ℚ)) : ℝ) (((-5 : ℚ)) : ℝ)
          = (saddleInstance 1 1).evaluate (((-5 : ℚ)) : ℝ) (((-5 : ℚ)) : ℝ) := by
  have hfuel : sampleLoop ((0 : ℚ) - 5) (0 + 5) = sampleLoopGo 35 (-5) 5 := by
    rw [sampleLoop]
    norm_num
    rfl
  have hstep1 : sampleLoopGo 35 ((-5 : ℚ)) 5 = -5 :: sampleLoopGo 34 (-47 / 10) 5 := by
    rw [show (35 : ℕ) = 34 + 1 by norm_num]
    simp only [sampleLoopGo]
    rw [if_pos (by norm_num : ((-5 : ℚ)) ≤ 5)]
    norm_num
  have hstep2 : sampleLoopGo 34 ((-47 / 10 : ℚ)) 5 = -47 / 10 :: sampleLoopGo 33 (-22 / 5) 5 := by
    rw [show (34 : ℕ) = 33 + 1 by norm_num]
    simp only [sampleLoopGo]
    rw [if_pos (by norm_num : ((-47 / 10 : ℚ)) ≤ 5)]
    norm_num
  have hx0 : (generateSurfaceData (saddleInstance 1 1) 0 0).1[0]? = some ((-5 : ℚ)) := by
    show (sampleLoop ((0 : ℚ) - 5) (0 + 5))[0]? = some ((-5 : ℚ))
    rw [hfuel, hstep1]
    simp
  have hx1 : (generateSurfaceData (saddleInstance 1 1) 0 0).1[0 + 1]? = some ((-47 / 10 : ℚ)) := by
    show (sampleLoop ((0 : ℚ) - 5) (0 + 5))[0 + 1]? = some ((-47 / 10 : ℚ))
    rw [hfuel, hstep1, List.getElem?_cons_succ, hstep2]
    simp
  have hy0 : (generateSurfaceData (saddleInstance 1 1) 0 0).2.1[0]? = some ((-5 : ℚ)) := by
    show (sampleLoop ((0 : ℚ) - 5) (0 + 5))[0]? = some ((-5 : ℚ))
    rw [hfuel, hstep1]
    simp
  have hrow : (generateSurfaceData (saddleInstance 1 1) 0 0).2.2[0]?
      = some ((generateSurfaceData (saddleInstance 1 1) 0 0).1.map
          (fun (xi : ℚ) => (saddleInstance 1 1).evaluate (xi : ℝ) (((-5 : ℚ)) : ℝ))) := by
    show ((sampleLoop ((0 : ℚ) - 5) (0 + 5)).map
        (fun (yi : ℚ) => (sampleLoop ((0 : ℚ) - 5) (0 + 5)).map
          (fun (xi : ℚ) => (saddleInstance 1 1).evaluate (xi : ℝ) (yi : ℝ))))[0]? = _
    rw [List.getElem?_map]
    rw [show (sampleLoop ((0 : ℚ) - 5) (0 + 5))[0]? = some ((-5 : ℚ)) from hy0]
    rfl
  have hv : ((generateSurfaceData (saddleInstance 1 1) 0 0).1.map
      (fun (xi : ℚ) => (saddleInstance 1 1).evaluate (xi : ℝ) (((-5 : ℚ)) : ℝ)))[0]?
        = some ((saddleInstance 1 1).evaluate (((-5 : ℚ)) : ℝ) (((-5 : ℚ)) : ℝ)) := by
    rw [List.getElem?_map, hx0]
    rfl
  exact ⟨(C7_surface_grid (saddleInstance 1 1) 0 0).1.1,
    (C7_surface_grid (saddleInstance 1 1) 0 0).2.1 0 (-5) (-47 / 10) hx0 hx1,
    (C7_surface_grid (saddleInstance 1 1) 0 0).2.2.2.2.2.2.1 0 _ hrow,
    (C7_surface_grid (saddleInstance 1 1) 0 0).2.2.2.2.2.2.2 0 0 _ _ (-5) (-5)
      hrow hv hx0 hy0⟩

/-! ## Gradient arrow -/

/-- C8: the arrow trace starts at the point with height
`z0 = evaluate(point)` and keeps that z at both endpoints; when the
gradient magnitude `m = sqrt(dfdx^2 + dfdy^2)` vanishes the segment
collapses to the point, and when `m` is positive the endpoint is offset
by the normalized gradient scaled by the visual length `0.3`. -/
theorem C8_gradient_arrow (func : FuncInst) (x0 y0 : ℝ) :
    (generateGradientArrows func x0 y0).z = [func.evaluate x0 y0, func.evaluate x0 y0]
    ∧ (Real.sqrt (func.partialXValue x0 y0 * func.partialXValue x0 y0
          + func.partialYValue x0 y0 * func.partialYValue x0 y0) = 0 →
        (generateGradientArrows func x0 y0).x = [x0, x0]
          ∧ (generateGradientArrows func x0 y0).y = [y0, y0])
    ∧ (0 < Real.sqrt (func.partialXValue x0 y0 * func.partialXValue x0 y0
          + func.partialYValue x0 y0 * func.partialYValue x0 y0) →
        (generateGradientArrows func x0 y0).x
            = [x0, x0 + func.partialXValue x0 y0
                / Real.sqrt (func.partialXValue x0 y0 * func.partialXValue x0 y0
                    + func.partialYValue x0 y0 * func.partialYValue x0 y0) * (3 / 10)]
          ∧ (generateGradientArrows func x0 y0).y
            = [y0, y0 + func.partialYValue x0 y0
                / Real.sqrt (func.partialXValue x0 y0 * func.partialXValue x0 y0
                    + func.partialYValue x0 y0 * func.partialYValue x0 y0) * (3 / 10)]) := by
  refine ⟨rfl, fun h0 => ?_, fun hpos => ?_⟩
  · have hn : ¬ (Real.sqrt (func.partialXValue x0 y0 * func.partialXValue x0 y0
        + func.partialYValue x0 y0 * func.partialYValue x0 y0) > 0) := by
      rw [h0]
      exact lt_irrefl 0
    simp only [generateGradientArrows]
    rw [if_neg hn, if_neg hn]
    norm_num
  · simp only [generateGradientArrows]
    rw [if_pos hpos, if_pos hpos]
    exact ⟨rfl, rfl⟩

/-- C8 witness: for the saddle instance with coefficients `1, 1` the
gradient vanishes at the origin and the arrow collapses to the point; at
`(1, 0)` the gradient is `(2, 0)`, the magnitude is positive, and the
endpoint is offset along the normalized gradient. -/
theorem C8_witness :
    ((generateGradientArrows (saddleInstance 1 1) 0 0).x = [0, 0]
      ∧ (generateGradientArrows (saddleInstance 1 1) 0 0).y = [0, 0])
    ∧ (generateGradientArrows (saddleInstance 1 1) 1 0).z
        = [(saddleInstance 1 1).evaluate 1 0, (saddleInstance 1 1).evaluate 1 0]
    ∧ (generateGradientArrows (saddleInstance 1 1) 1 0).x
        = [1, 1 + (saddleInstance 1 1).partialXValue 1 0
            / Real.sqrt ((saddleInstance 1 1).partialXValue 1 0
                  * (saddleInstance 1 1).partialXValue 1 0
                + (saddleInstance 1 1).partialYValue 1 0
                  * (saddleInstance 1 1).partialYValue 1 0) * (3 / 10)] := by
  refine ⟨(C8_gradient_arrow (saddleInstance 1 1) 0 0).2.1 ?_,
    (C8_gradient_arrow (saddleInstance 1 1) 1 0).1,
    ((C8_gradient_arrow (saddleInstance 1 1) 1 0).2.2 ?_).1⟩
  · simp [saddleInstance]
  · apply Real.sqrt_pos.mpr
    simp [saddleInstance]

/-! ## Random coefficient generation -/

/-- The `Math.random` contract: every drawn value lies in `[0, 1)`. -/
def RandStream (rs : List ℚ) : Prop := ∀ r ∈ rs, 0 ≤ r ∧ r < 1

theorem drawInt_bounds {r : ℚ} {lo hi : ℤ} (h0 : 0 ≤ r) (h1 : r < 1) (hle : lo ≤ hi) :
    lo ≤ drawInt r lo hi ∧ drawInt r lo hi ≤ hi := by
  unfold drawInt
  have hki : ((lo : ℚ)) ≤ (hi : ℚ) := by exact_mod_cast hle
  have hk : (0 : ℚ) < (hi : ℚ) - (lo : ℚ) + 1 := by linarith
  constructor
  · have : (0 : ℤ) ≤ ⌊r * ((hi : ℚ) - (lo : ℚ) + 1)⌋ :=
      Int.floor_nonneg.mpr (by positivity)
    omega
  · have hlt : r * ((hi : ℚ) - (lo : ℚ) + 1) < (hi : ℚ) - (lo : ℚ) + 1 := by nlinarith
    have : ⌊r * ((hi : ℚ) - (lo : ℚ) + 1)⌋ < hi - lo + 1 := by
      rw [Int.floor_lt]
      push_cast
      linarith
    omega

theorem randomIntFrom_spec {rs : List ℚ} {lo hi : ℤ} {ex : Option ℤ} {n : ℤ}
    (hrs : RandStream rs) (hle : lo ≤ hi) (h : randomIntFrom rs lo hi ex = some n) :
    lo ≤ n ∧ n ≤ hi ∧ ex ≠ some n := by
  induction rs with
  | nil => simp [randomIntFrom] at h
  | cons r rest ih =>
      simp only [randomIntFrom] at h
      split at h
      · exact ih (fun r' hr' => hrs r' (List.mem_cons_of_mem _ hr')) h
      case isFalse hne =>
        injection h with h
        subst h
        have hr := hrs r (List.mem_cons_self _ _)
        have hb := drawInt_bounds hr.1 hr.2 hle
        exact ⟨hb.1, hb.2, hne⟩

/-- C9: `randomInt` draws land in the closed range `[lo, hi]` and never
equal the excluded value, re-sampling until a non-excluded value comes
up; consequently each family's generated coefficients lie in their
declared ranges — for the quadratic family `a, b, c ∈ [-3, 3]` and
`d, e ∈ [-2, 2]`, all nonzero. -/
theorem C9_coefficient_ranges :
    (∀ (rs : List ℚ) (lo hi : ℤ) (ex : Option ℤ) (n : ℤ),
        RandStream rs → lo ≤ hi → randomIntFrom rs lo hi ex = some n →
        lo ≤ n ∧ n ≤ hi ∧ ex ≠ some n)
    ∧ (∀ (r1 r2 r3 r4 r5 : List ℚ) (a b c d e : ℤ),
        RandStream r1 → RandStream r2 → RandStream r3 → RandStream r4 → RandStream r5 →
        quadraticCoeffs r1 r2 r3 r4 r5 = some (a, b, c, d, e) →
        (-3 ≤ a ∧ a ≤ 3 ∧ a ≠ 0) ∧ (-3 ≤ b ∧ b ≤ 3 ∧ b ≠ 0) ∧ (-3 ≤ c ∧ c ≤ 3 ∧ c ≠ 0)
          ∧ (-2 ≤ d ∧ d ≤ 2 ∧ d ≠ 0) ∧ (-2 ≤ e ∧ e ≤ 2 ∧ e ≠ 0))
    ∧ (∀ (r1 r2 r3 : List ℚ) (a c d : ℤ),
        RandStream r1 → RandStream r2 → RandStream r3 →
        exponentialCoeffs r1 r2 r3 = some (a, c, d) →
        (1 ≤ a ∧ a ≤ 3) ∧ (1 ≤ c ∧ c ≤ 3) ∧ (-2 ≤ d ∧ d ≤ 2 ∧ d ≠ 0))
    ∧ (∀ (r1 r2 r3 : List ℚ) (a b c : ℤ),
        RandStream r1 → RandStream r2 → RandStream r3 →
        sinusoidalCoeffs r1 r2 r3 = some (a, b, c) →
        (1 ≤ a ∧ a ≤ 3) ∧ (1 ≤ b ∧ b ≤ 3) ∧ (-2 ≤ c ∧ c ≤ 2 ∧ c ≠ 0))
    ∧ (∀ (r1 r2 : List ℚ) (a b : ℤ),
        RandStream r1 → RandStream r2 →
        saddleCoeffs r1 r2 = some (a, b) →
        (1 ≤ a ∧ a ≤ 3) ∧ (1 ≤ b ∧ b ≤ 3)) := by
  have hx : ∀ {rs : List ℚ} {lo hi n : ℤ}, RandStream rs → lo ≤ hi →
      randomIntFrom rs lo hi (some 0) = some n → lo ≤ n ∧ n ≤ hi ∧ n ≠ 0 := by
    intro rs lo hi n hrs hle h
    obtain ⟨h1, h2, h3⟩ := randomIntFrom_spec hrs hle h
    exact ⟨h1, h2, fun hz => h3 (by rw [hz])⟩
  refine ⟨fun rs lo hi ex n hrs hle h => randomIntFrom_spec hrs hle h, ?_, ?_, ?_, ?_⟩
  · intro r1 r2 r3 r4 r5 a b c d e h1 h2 h3 h4 h5 h
    unfold quadraticCoeffs at h
    rcases ha : randomIntFrom r1 (-3) 3 (some 0) with _ | a' <;> rw [ha] at h <;>
      try simp at h
    rcases hb : randomIntFrom r2 (-3) 3 (some 0) with _ | b' <;> rw [hb] at h <;>
      try simp at h
    rcases hc : randomIntFrom r3 (-3) 3 (some 0) with _ | c' <;> rw [hc] at h <;>
      try simp at h
    rcases hd : randomIntFrom r4 (-2) 2 (some 0) with _ | d' <;> rw [hd] at h <;>
      try simp at h
    rcases he : randomIntFrom r5 (-2) 2 (some 0) with _ | e' <;> rw [he] at h <;>
      try simp at h
    obtain ⟨rfl, rfl, rfl, rfl, rfl⟩ := h
    exact ⟨hx h1 (by norm_num) ha, hx h2 (by norm_num) hb, hx h3 (by norm_num) hc,
      hx h4 (by norm_num) hd, hx h5 (by norm_num) he⟩
  · intro r1 r2 r3 a c d h1 h2 h3 h
    unfold exponentialCoeffs at h
    rcases ha : randomIntFrom r1 1 3 none with _ | a' <;> rw [ha] at h <;> try simp at h
    rcases hc : randomIntFrom r2 1 3 none with _ | c' <;> rw [hc] at h <;> try simp at h
    rcases hd : randomIntFrom r3 (-2) 2 (some 0) with _ | d' <;> rw [hd] at h <;>
      try simp at h
    obtain ⟨rfl, rfl, rfl⟩ := h
    obtain ⟨ha1, ha2, _⟩ := randomIntFrom_spec h1 (by norm_num) ha
    obtain ⟨hc1, hc2, _⟩ := randomIntFrom_spec h2 (by norm_num) hc
    exact ⟨⟨ha1, ha2⟩, ⟨hc1, hc2⟩, hx h3 (by norm_num) hd⟩
  · intro r1 r2 r3 a b c h1 h2 h3 h
    unfold sinusoidalCoeffs at h
    rcases ha : randomIntFrom r1 1 3 none with _ | a' <;> rw [ha] at h <;> try simp at h
    rcases hb : randomIntFrom r2 1 3 none with _ | b' <;> rw [hb] at h <;> try simp at h
    rcases hc : randomIntFrom r3 (-2) 2 (some 0) with _ | c' <;> rw [hc] at h <;>
      try simp at h
    obtain ⟨rfl, rfl, rfl⟩ := h
    obtain ⟨ha1, ha2, _⟩ := randomIntFrom_spec h1 (by norm_num) ha
    obtain ⟨hb1, hb2, _⟩ := randomIntFrom_spec h2 (by norm_num) hb
    exact ⟨⟨ha1, ha2⟩, ⟨hb1, hb2⟩, hx h3 (by norm_num) hc⟩
  · intro r1 r2 a b h1 h2 h
    unfold saddleCoeffs at h
    rcases ha : randomIntFrom r1 1 3 none with _ | a' <;> rw [ha] at h <;> try simp at h
    rcases hb : randomIntFrom r2 1 3 none with _ | b' <;> rw [hb] at h <;> try simp at h
    obtain ⟨rfl, rfl⟩ := h
    obtain ⟨ha1, ha2, _⟩ := randomIntFrom_spec h1 (by norm_num) ha
    obtain ⟨hb1, hb2, _⟩ := randomIntFrom_spec h2 (by norm_num) hb
    exact ⟨⟨ha1, ha2⟩, ⟨hb1, hb2⟩⟩

/-- C9 witness: on the constant stream `2/3` every draw lands on `1`
(`floor(2/3 * 7) - 3 = 1` and `floor(2/3 * 5) - 2 = 1`), so the general
bound and each family's generation are exercised concretely. -/
theorem C9_witness :
    ((-3 : ℤ) ≤ 1 ∧ (1 : ℤ) ≤ 3 ∧ (some 0 : Option ℤ) ≠ some 1)
      ∧ (((-3 : ℤ) ≤ 1 ∧ (1 : ℤ) ≤ 3 ∧ (1 : ℤ) ≠ 0) ∧ ((-3 : ℤ) ≤ 1 ∧ (1 : ℤ) ≤ 3 ∧ (1 : ℤ) ≠ 0)
          ∧ ((-3 : ℤ) ≤ 1 ∧ (1 : ℤ) ≤ 3 ∧ (1 : ℤ) ≠ 0)
          ∧ ((-2 : ℤ) ≤ 1 ∧ (1 : ℤ) ≤ 2 ∧ (1 : ℤ) ≠ 0)
          ∧ ((-2 : ℤ) ≤ 1 ∧ (1 : ℤ) ≤ 2 ∧ (1 : ℤ) ≠ 0))
      ∧ (((1 : ℤ) ≤ 3 ∧ (3 : ℤ) ≤ 3) ∧ ((1 : ℤ) ≤ 3 ∧ (3 : ℤ) ≤ 3)) := by
  have hstream : RandStream [2 / 3] := by
    intro r hr
    simp at hr
    subst hr
    norm_num
  have hdraw33 : randomIntFrom [2 / 3] (-3) 3 (some 0) = some 1 := by
    simp only [randomIntFrom, drawInt]
    norm_num
  have hdraw22 : randomIntFrom [2 / 3] (-2) 2 (some 0) = some 1 := by
    simp only [randomIntFrom, drawInt]
    norm_num
  have hdraw13 : randomIntFrom [2 / 3] 1 3 none = some 3 := by
    simp only [randomIntFrom, drawInt]
    norm_num
  refine ⟨C9_coefficient_ranges.1 [2 / 3] (-3) 3 (some 0) 1 hstream (by norm_num) hdraw33,
    C9_coefficient_ranges.2.1 [2 / 3] [2 / 3] [2 / 3] [2 / 3] [2 / 3] 1 1 1 1 1
      hstream hstream hstream hstream hstream ?_,
    C9_coefficient_ranges.2.2.2.2 [2 / 3] [2 / 3] 3 3 hstream hstream ?_⟩
  · unfold quadraticCoeffs
    rw [hdraw33, hdraw22]
  · unfold saddleCoeffs
    rw [hdraw13]

/-! ## Exactness of the analytic partial derivatives -/

theorem quadratic_hasDerivAt_x (a b c d e : ℤ) (x y : ℝ) :
    HasDerivAt (fun t => (a : ℝ) * t * t + (b : ℝ) * t * y + (c : ℝ) * y * y
        + (d : ℝ) * t + (e : ℝ) * y)
      (2 * (a : ℝ) * x + (b : ℝ) * y + (d : ℝ)) x := by
  have h := (((((hasDerivAt_id x).const_mul (a : ℝ)).mul (hasDerivAt_id x)).add
      ((((hasDerivAt_id x).const_mul (b : ℝ)).mul_const y))).add
      (hasDerivAt_const x ((c : ℝ) * y * y))).add
      ((hasDerivAt_id x).const_mul (d : ℝ)) |>.add (hasDerivAt_const x ((e : ℝ) * y))
  convert h using 1
  simp only [id_eq]
  ring

theorem quadratic_hasDerivAt_y (a b c d e : ℤ) (x y : ℝ) :
    HasDerivAt (fun t => (a : ℝ) * x * x + (b : ℝ) * x * t + (c : ℝ) * t * t
        + (d : ℝ) * x + (e : ℝ) * t)
      ((b : ℝ) * x + 2 * (c : ℝ) * y + (e : ℝ)) y := by
  have h := ((((hasDerivAt_const y ((a : ℝ) * x * x)).add
      ((hasDerivAt_id y).const_mul ((b : ℝ) * x))).add
      (((hasDerivAt_id y).const_mul (c : ℝ)).mul (hasDerivAt_id y))).add
      (hasDerivAt_const y ((d : ℝ) * x))).add ((hasDerivAt_id y).const_mul (e : ℝ))
  convert h using 1
  simp only [id_eq]
  ring

theorem exponential_hasDerivAt_x (a c d : ℤ) (x y : ℝ) :
    HasDerivAt (fun t => (a : ℝ) * Real.exp (-(t * t + y * y) / (c : ℝ)) + (d : ℝ))
      ((a : ℝ) * Real.exp (-(x * x + y * y) / (c : ℝ)) * (-2 * x / (c : ℝ))) x := by
  have hu := (((hasDerivAt_id x).mul (hasDerivAt_id x)).add_const (y * y)).neg.div_const
    ((c : ℝ))
  have h := ((hu.exp).const_mul ((a : ℝ))).add_const ((d : ℝ))
  convert h using 1
  simp only [id_eq]
  ring

theorem exponential_hasDerivAt_y (a c d : ℤ) (x y : ℝ) :
    HasDerivAt (fun t => (a : ℝ) * Real.exp (-(x * x + t * t) / (c : ℝ)) + (d : ℝ))
      ((a : ℝ) * Real.exp (-(x * x + y * y) / (c : ℝ)) * (-2 * y / (c : ℝ))) y := by
  have hu := (((hasDerivAt_id y).mul (hasDerivAt_id y)).const_add (x * x)).neg.div_const
    ((c : ℝ))
  have h := ((hu.exp).const_mul ((a : ℝ))).add_const ((d : ℝ))
  convert h using 1
  simp only [id_eq]
  ring

theorem sinusoidal_hasDerivAt_x (a b c : ℤ) (x y : ℝ) :
    HasDerivAt (fun t => (a : ℝ) * Real.sin t + (b : ℝ) * Real.cos y + (c : ℝ))
      ((a : ℝ) * Real.cos x) x := by
  have h := (((Real.hasDerivAt_sin x).const_mul ((a : ℝ))).add_const
    ((b : ℝ) * Real.cos y)).add_const ((c : ℝ))
  convert h using 1

theorem sinusoidal_hasDerivAt_y (a b c : ℤ) (x y : ℝ) :
    HasDerivAt (fun t => (a : ℝ) * Real.sin x + (b : ℝ) * Real.cos t + (c : ℝ))
      (-(b : ℝ) * Real.sin y) y := by
  have h := (((Real.hasDerivAt_cos y).const_mul ((b : ℝ))).const_add
    ((a : ℝ) * Real.sin x)).add_const ((c : ℝ))
  convert h using 1
  ring

theorem saddle_hasDerivAt_x (a b : ℤ) (x y : ℝ) :
    HasDerivAt (fun t => (a : ℝ) * t * t - (b : ℝ) * y * y) (2 * (a : ℝ) * x) x := by
  have h := (((hasDerivAt_id x).const_mul ((a : ℝ))).mul (hasDerivAt_id x)).sub_const
    ((b : ℝ) * y * y)
  convert h using 1
  simp only [id_eq]
  ring

theorem saddle_hasDerivAt_y (a b : ℤ) (x y : ℝ) :
    HasDerivAt (fun t => (a : ℝ) * x * x - (b : ℝ) * t * t) (-2 * (b : ℝ) * y) y := by
  have h := HasDerivAt.const_sub ((a : ℝ) * x * x)
    (((hasDerivAt_id y).const_mul ((b : ℝ))).mul (hasDerivAt_id y))
  convert h using 1
  simp only [id_eq]
  ring

/-- C1: for every family in the catalog and every choice of integer
coefficients — so in particular every choice within the declared ranges —
`partialXValue` and `partialYValue` are the exact calculus partial
derivatives of `evaluate` at every point `(x, y)`; and the saddle family
with `a = 2, b = 1` at `(1, -1)` evaluates to `1` with partial
derivatives `4` and `2`. -/
theorem C1_partials_exact :
    (∀ (a b c d e : ℤ) (x y : ℝ),
        HasDerivAt (fun t => (quadraticInstance a b c d e).evaluate t y)
          ((quadraticInstance a b c d e).partialXValue x y) x
        ∧ HasDerivAt (fun t => (quadraticInstance a b c d e).evaluate x t)
          ((quadraticInstance a b c d e).partialYValue x y) y)
    ∧ (∀ (a c d : ℤ) (x y : ℝ),
        HasDerivAt (fun t => (exponentialInstance a c d).evaluate t y)
          ((exponentialInstance a c d).partialXValue x y) x
        ∧ HasDerivAt (fun t => (exponentialInstance a c d).evaluate x t)
          ((exponentialInstance a c d).partialYValue x y) y)
    ∧ (∀ (a b c : ℤ) (x y : ℝ),
        HasDerivAt (fun t => (sinusoidalInstance a b c).evaluate t y)
          ((sinusoidalInstance a b c).partialXValue x y) x
        ∧ HasDerivAt (fun t => (sinusoidalInstance a b c).evaluate x t)
          ((sinusoidalInstance a b c).partialYValue x y) y)
    ∧ (∀ (a b : ℤ) (x y : ℝ),
        HasDerivAt (fun t => (saddleInstance a b).evaluate t y)
          ((saddleInstance a b).partialXValue x y) x
        ∧ HasDerivAt (fun t => (saddleInstance a b).evaluate x t)
          ((saddleInstance a b).partialYValue x y) y)
    ∧ (saddleInstance 2 1).evaluate 1 (-1) = 1
    ∧ (saddleInstance 2 1).partialXValue 1 (-1) = 4
    ∧ (saddleInstance 2 1).partialYValue 1 (-1) = 2 := by
  refine ⟨fun a b c d e x y => ⟨quadratic_hasDerivAt_x a b c d e x y,
      quadratic_hasDerivAt_y a b c d e x y⟩,
    fun a c d x y => ⟨exponential_hasDerivAt_x a c d x y,
      exponential_hasDerivAt_y a c d x y⟩,
    fun a b c x y => ⟨sinusoidal_hasDerivAt_x a b c x y,
      sinusoidal_hasDerivAt_y a b c x y⟩,
    fun a b x y => ⟨saddle_hasDerivAt_x a b x y, saddle_hasDerivAt_y a b x y⟩,
    ?_, ?_, ?_⟩ <;>
  · simp [saddleInstance]
    try norm_num

end GradientViz
